import Mathlib

/-!
Verification of the `ohairs` chat-completion client data layer
(`src/dtypes.rs`), centered on the streaming frame decoder
`ChatCompletionChunk::from_chunk` and the serde wire (de)serialization of
the request/response record types.

Modelling conventions
- Rust `String`/`&str` values are Lean `String`s (sequences of Unicode
  scalar values, as in Rust).
- `serde_json` values are modelled by the inductive `Json` below.  JSON
  number literals that lex as integers within the i64/u64 machine ranges
  become `Json.jint`; all other numbers become `Json.jfloat`, carried as an
  exact rational (the claims under verification never depend on IEEE-754
  rounding of float payloads).
- Fallible Rust functions returning `anyhow::Result` become `Except`.
-/

namespace Ohairs

/-- Model of a `serde_json` JSON value.  Objects keep their key/value pairs
in source order (duplicates included); deduplication and unknown-field
handling happen in the struct deserializers, as in serde. -/
inductive Json where
  | jnull : Json
  | jbool (b : Bool) : Json
  | jint (n : Int) : Json
  | jfloat (q : Rat) : Json
  | jstr (s : String) : Json
  | jarr (xs : List Json) : Json
  | jobj (kvs : List (String × Json)) : Json

/-- The keys of a JSON object, in order (empty for non-objects). -/
def Json.keys : Json → List String
  | .jobj kvs => kvs.map Prod.fst
  | _ => []

/-- Association-list lookup among a JSON object's fields: the value bound to
the first occurrence of key `k`, if any (none for non-objects). -/
def Json.lookupKey (k : String) : Json → Option Json
  | .jobj kvs => go kvs
  | _ => none
where
  go : List (String × Json) → Option Json
    | [] => none
    | (l, v) :: rest => if l = k then some v else go rest

/-! ## Rust string primitives

`str::trim` trims characters satisfying `char::is_whitespace`, i.e. the
Unicode `White_Space` property; `str::starts_with`/`str::strip_prefix` test
and drop a literal character-sequence prefix. -/

/-- Rust `char::is_whitespace`: the Unicode `White_Space` code points. -/
def rustIsWhitespace (c : Char) : Bool :=
  let n := c.toNat
  (0x09 ≤ n && n ≤ 0x0D) || n = 0x20 || n = 0x85 || n = 0xA0 || n = 0x1680 ||
  (0x2000 ≤ n && n ≤ 0x200A) || n = 0x2028 || n = 0x2029 || n = 0x202F ||
  n = 0x205F || n = 0x3000

/-- Rust `str::trim`: drop leading and trailing `White_Space` characters. -/
def rustTrim (s : String) : String :=
  ⟨((s.data.dropWhile rustIsWhitespace).reverse.dropWhile rustIsWhitespace).reverse⟩

/-- Rust `str::starts_with(pat)` for a literal string pattern. -/
def rustStartsWith (s pat : String) : Bool :=
  pat.data.isPrefixOf s.data

/-- Rust `str::strip_prefix(pat)`: `some` of the remainder when `pat` is a
prefix of `s`, otherwise `none`. -/
def rustStripPfx (s pat : String) : Option String :=
  if pat.data.isPrefixOf s.data then some ⟨s.data.drop pat.data.length⟩ else none

/-! ## JSON parser

A model of `serde_json`'s text-level grammar (RFC 8259 as implemented by
serde_json: strict literals, no leading zeros in numbers, the four JSON
whitespace characters, escape sequences including `\uXXXX` with surrogate
pairs, unescaped control characters rejected).  Parsing is two-phase in
this model: text to `Json`, then `Json` to the target record type with
serde-derive field semantics; `serde_json::from_str` fuses the two phases
but computes the same classification for the types at hand. -/

/-- JSON insignificant whitespace (serde_json accepts exactly these). -/
def jsonIsWs (c : Char) : Bool :=
  c == ' ' || c == '\t' || c == '\n' || c == '\r'

/-- Drop leading JSON whitespace. -/
def jsonSkipWs (cs : List Char) : List Char :=
  cs.dropWhile jsonIsWs

/-- Value of a hexadecimal digit, if `c` is one. -/
def hexDigitVal (c : Char) : Option Nat :=
  if '0' ≤ c ∧ c ≤ '9' then some (c.toNat - '0'.toNat)
  else if 'a' ≤ c ∧ c ≤ 'f' then some (c.toNat - 'a'.toNat + 10)
  else if 'A' ≤ c ∧ c ≤ 'F' then some (c.toNat - 'A'.toNat + 10)
  else none

/-- Read exactly four hex digits, returning their value and the rest. -/
def parseHex4 (cs : List Char) : Option (Nat × List Char) :=
  match cs with
  | c1 :: c2 :: c3 :: c4 :: rest =>
    match hexDigitVal c1, hexDigitVal c2, hexDigitVal c3, hexDigitVal c4 with
    | some a, some b, some c, some d => some (((a * 16 + b) * 16 + c) * 16 + d, rest)
    | _, _, _, _ => none
  | _ => none

/-- Body of a JSON string, after the opening quote: processes escape
sequences (including surrogate pairs) and rejects unescaped control
characters, returning the decoded string and the input after the closing
quote.  `fuel` bounds recursion; any `fuel` larger than the input length
gives the parse result. -/
def parseStringBody : Nat → List Char → List Char → Except String (String × List Char)
  | 0, _, _ => .error "recursion limit exceeded"
  | _, _, [] => .error "EOF while parsing a string"
  | fuel + 1, acc, c :: rest =>
    if c == '"' then .ok (⟨acc.reverse⟩, rest)
    else if c == '\\' then
      match rest with
      | [] => .error "EOF while parsing a string"
      | e :: rest2 =>
        if e == '"' then parseStringBody fuel ('"' :: acc) rest2
        else if e == '\\' then parseStringBody fuel ('\\' :: acc) rest2
        else if e == '/' then parseStringBody fuel ('/' :: acc) rest2
        else if e == 'b' then parseStringBody fuel ('\x08' :: acc) rest2
        else if e == 'f' then parseStringBody fuel ('\x0C' :: acc) rest2
        else if e == 'n' then parseStringBody fuel ('\n' :: acc) rest2
        else if e == 'r' then parseStringBody fuel ('\r' :: acc) rest2
        else if e == 't' then parseStringBody fuel ('\t' :: acc) rest2
        else if e == 'u' then
          match parseHex4 rest2 with
          | none => .error "invalid unicode code point"
          | some (n, rest3) =>
            if 0xD800 ≤ n ∧ n ≤ 0xDBFF then
              match rest3 with
              | '\\' :: 'u' :: rest4 =>
                match parseHex4 rest4 with
                | none => .error "invalid unicode code point"
                | some (m, rest5) =>
                  if 0xDC00 ≤ m ∧ m ≤ 0xDFFF then
                    parseStringBody fuel
                      (Char.ofNat (0x10000 + (n - 0xD800) * 0x400 + (m - 0xDC00)) :: acc) rest5
                  else .error "lone leading surrogate in hex escape"
              | _ => .error "unexpected end of hex escape"
            else if 0xDC00 ≤ n ∧ n ≤ 0xDFFF then
              .error "lone trailing surrogate in hex escape"
            else parseStringBody fuel (Char.ofNat n :: acc) rest3
        else .error "invalid escape"
    else if c.toNat < 0x20 then .error "control character in string"
    else parseStringBody fuel (c :: acc) rest

/-- Numeric value of a decimal digit character. -/
def digitVal (c : Char) : Nat := c.toNat - '0'.toNat

/-- Value of a digit string read in base 10. -/
def digitsToNat (ds : List Char) : Nat := ds.foldl (fun a c => a * 10 + digitVal c) 0

/-- A JSON number, starting at a `-` or a digit.  Integer literals within
the machine integer ranges become `jint` (as in serde_json, which lexes
them as i64/u64); fractional, exponent-bearing or out-of-range literals
become `jfloat`, with the exact rational value. -/
def parseNumber (cs : List Char) : Except String (Json × List Char) :=
  let (neg, cs1) := match cs with | '-' :: r => (true, r) | _ => (false, cs)
  match cs1.head? with
  | none => .error "EOF while parsing a value"
  | some c =>
    if ¬ c.isDigit then .error "invalid number" else
    let ip := cs1.takeWhile Char.isDigit
    let cs2 := cs1.dropWhile Char.isDigit
    if ip.headD '0' == '0' ∧ ip.length > 1 then .error "invalid number" else
    let ipVal := digitsToNat ip
    -- optional fraction part
    let stepFrac : Except String (List Char × List Char) :=
      match cs2 with
      | '.' :: r =>
        let fd := r.takeWhile Char.isDigit
        if fd.isEmpty then .error "invalid number"
        else .ok (fd, r.dropWhile Char.isDigit)
      | _ => .ok ([], cs2)
    match stepFrac with
    | .error e => .error e
    | .ok (fd, cs3) =>
      -- optional exponent part
      let stepExp : Except String (Option Int × List Char) :=
        match cs3 with
        | e :: r =>
          if e == 'e' || e == 'E' then
            let (esign, r2) := match r with
              | '-' :: r2 => (true, r2)
              | '+' :: r2 => (false, r2)
              | _ => (false, r)
            let ed := r2.takeWhile Char.isDigit
            if ed.isEmpty then .error "invalid number"
            else
              let ev : Int := Int.ofNat (digitsToNat ed)
              .ok (some (if esign then -ev else ev), r2.dropWhile Char.isDigit)
          else .ok (none, cs3)
        | [] => .ok (none, cs3)
      match stepExp with
      | .error e => .error e
      | .ok (expPart, cs4) =>
        if fd.isEmpty ∧ expPart.isNone then
          -- integer literal: i64 / u64 ranges, falling back to float beyond
          let n : Int := if neg then -(Int.ofNat ipVal) else Int.ofNat ipVal
          if -(2 ^ 63) ≤ n ∧ n < 2 ^ 64 then .ok (.jint n, cs4)
          else .ok (.jfloat (n : Rat), cs4)
        else
          let mant : Int :=
            let m := Int.ofNat (ipVal * 10 ^ fd.length + digitsToNat fd)
            if neg then -m else m
          let e : Int := expPart.getD 0 - fd.length
          let q : Rat :=
            if 0 ≤ e then (mant * 10 ^ e.toNat : Int) else mkRat mant (10 ^ (-e).toNat)
          .ok (.jfloat q, cs4)

/-- Expect a literal run of characters, returning the rest on success. -/
def expectChars (lit cs : List Char) : Option (List Char) :=
  if lit.isPrefixOf cs then some (cs.drop lit.length) else none

mutual

/-- Parse one JSON value (leading whitespace allowed), returning the value
and the unconsumed rest.  `fuel` bounds the recursion; any fuel larger
than twice the input length gives the parse result. -/
def parseValue : Nat → List Char → Except String (Json × List Char)
  | 0, _ => .error "recursion limit exceeded"
  | fuel + 1, cs =>
    match jsonSkipWs cs with
    | [] => .error "EOF while parsing a value"
    | c :: rest =>
      if c == 'n' then
        match expectChars ['u', 'l', 'l'] rest with
        | some r => .ok (.jnull, r)
        | none => .error "expected ident"
      else if c == 't' then
        match expectChars ['r', 'u', 'e'] rest with
        | some r => .ok (.jbool true, r)
        | none => .error "expected ident"
      else if c == 'f' then
        match expectChars ['a', 'l', 's', 'e'] rest with
        | some r => .ok (.jbool false, r)
        | none => .error "expected ident"
      else if c == '"' then
        match parseStringBody (rest.length + 1) [] rest with
        | .ok (s, r) => .ok (.jstr s, r)
        | .error e => .error e
      else if c == '[' then
        match jsonSkipWs rest with
        | ']' :: r => .ok (.jarr [], r)
        | cs2 => parseArrayRest fuel [] cs2
      else if c == '\x7b' then
        match jsonSkipWs rest with
        | '\x7d' :: r => .ok (.jobj [], r)
        | cs2 => parseObjRest fuel [] cs2
      else if c == '-' || c.isDigit then parseNumber (c :: rest)
      else .error "expected value"

/-- Elements of a JSON array after `[` (or after a `,`), first element
expected next. -/
def parseArrayRest : Nat → List Json → List Char → Except String (Json × List Char)
  | 0, _, _ => .error "recursion limit exceeded"
  | fuel + 1, acc, cs =>
    match parseValue fuel cs with
    | .error e => .error e
    | .ok (v, rest) =>
      match jsonSkipWs rest with
      | ',' :: r => parseArrayRest fuel (v :: acc) r
      | ']' :: r => .ok (.jarr (v :: acc).reverse, r)
      | _ => .error "expected comma or bracket"

/-- Members of a JSON object after the opening brace (or after a `,`),
first `"key": value` pair expected next. -/
def parseObjRest : Nat → List (String × Json) → List Char → Except String (Json × List Char)
  | 0, _, _ => .error "recursion limit exceeded"
  | fuel + 1, acc, cs =>
    match jsonSkipWs cs with
    | '"' :: r =>
      match parseStringBody (r.length + 1) [] r with
      | .error e => .error e
      | .ok (k, rest) =>
        match jsonSkipWs rest with
        | ':' :: r2 =>
          match parseValue fuel r2 with
          | .error e => .error e
          | .ok (v, rest2) =>
            match jsonSkipWs rest2 with
            | ',' :: r3 => parseObjRest fuel ((k, v) :: acc) r3
            | '\x7d' :: r3 => .ok (.jobj ((k, v) :: acc).reverse, r3)
            | _ => .error "expected comma or brace"
        | _ => .error "expected colon"
    | _ => .error "key must be a string"

end

/-- Model of `serde_json::from_str` to a JSON value: parse one value and
require only whitespace after it. -/
def parseJson (s : String) : Except String Json :=
  match parseValue (2 * s.data.length + 8) s.data with
  | .error e => .error e
  | .ok (v, rest) =>
    if (jsonSkipWs rest).isEmpty then .ok v else .error "trailing characters"

/-! ## Record types (`src/dtypes.rs`)

The structures below mirror the Rust structs field-for-field.  `u64`
fields are `Nat` (their deserializer enforces the `[0, 2^64)` range),
`Vec` is `List`, `Option` is `Option`. -/

/-- Rust `FunctionCall`: name of the function and its arguments as a raw
string (passed through verbatim, never parsed as JSON here). -/
structure FunctionCall where
  name : String
  arguments : String
deriving DecidableEq, Repr

/-- Rust `ChatCompletionMessage`: role (required), optional content,
optional function call.  Also used as the streamed `delta` shape. -/
structure ChatCompletionMessage where
  role : String
  content : Option String
  function_call : Option FunctionCall
deriving DecidableEq, Repr

/-- Rust `ChatCompletionChunkChoice`. -/
structure ChatCompletionChunkChoice where
  index : Nat
  delta : ChatCompletionMessage
  finish_reason : Option String
deriving DecidableEq, Repr

/-- Rust `ChatCompletionChunk`. -/
structure ChatCompletionChunk where
  id : String
  object : String
  created : Nat
  model : String
  choices : List ChatCompletionChunkChoice
deriving DecidableEq, Repr

/-! ## serde-derive deserialization

The Rust structs use plain `#[derive(Deserialize)]`: every struct
deserializes from a JSON object, visiting its entries in order; a known
key binds its field (a second occurrence is a `duplicate field` error), an
unknown key is ignored, and at the end a missing non-`Option` field is a
`missing field` error while a missing `Option` field defaults to `None`
(an explicit `null` is also `None`). -/

/-- serde deserialization of `String` from a JSON value. -/
def deString : Json → Except String String
  | .jstr s => .ok s
  | _ => .error "invalid type: expected a string"

/-- serde deserialization of `u64` from a JSON value: the literal must
have lexed as an integer in `[0, 2^64)`. -/
def deU64 : Json → Except String Nat
  | .jint n => if 0 ≤ n ∧ n < 2 ^ 64 then .ok n.toNat else .error "invalid value: out of range for u64"
  | .jfloat _ => .error "invalid type: floating point"
  | _ => .error "invalid type: expected u64"

/-- serde deserialization of `Option<String>`: `null` is `None`, a string
is `Some`. -/
def deOptString : Json → Except String (Option String)
  | .jnull => .ok none
  | .jstr s => .ok (some s)
  | _ => .error "invalid type: expected a string or null"

/-- Deserialize every element of a JSON array. -/
def deListWith (f : Json → Except String α) : List Json → Except String (List α)
  | [] => .ok []
  | v :: rest =>
    match f v with
    | .error e => .error e
    | .ok a =>
      match deListWith f rest with
      | .error e => .error e
      | .ok as => .ok (a :: as)

/-- Field-visiting loop of `FunctionCall`'s derived deserializer.  The two
accumulators hold the fields already seen. -/
def FunctionCall.fromFields : List (String × Json) → Option String → Option String →
    Except String FunctionCall
  | [], nameAcc, argsAcc =>
    match nameAcc with
    | none => .error "missing field name"
    | some n =>
      match argsAcc with
      | none => .error "missing field arguments"
      | some a => .ok ⟨n, a⟩
  | (k, v) :: rest, nameAcc, argsAcc =>
    if k = "name" then
      match nameAcc with
      | some _ => .error "duplicate field name"
      | none =>
        match deString v with
        | .error e => .error e
        | .ok s => FunctionCall.fromFields rest (some s) argsAcc
    else if k = "arguments" then
      match argsAcc with
      | some _ => .error "duplicate field arguments"
      | none =>
        match deString v with
        | .error e => .error e
        | .ok s => FunctionCall.fromFields rest nameAcc (some s)
    else FunctionCall.fromFields rest nameAcc argsAcc

/-- serde deserialization of `FunctionCall`. -/
def FunctionCall.fromJson : Json → Except String FunctionCall
  | .jobj kvs => FunctionCall.fromFields kvs none none
  | _ => .error "invalid type: expected struct FunctionCall"

/-- serde deserialization of `Option<FunctionCall>`. -/
def deOptFunctionCall : Json → Except String (Option FunctionCall)
  | .jnull => .ok none
  | v =>
    match FunctionCall.fromJson v with
    | .error e => .error e
    | .ok fc => .ok (some fc)

/-- Field-visiting loop of `ChatCompletionMessage`'s derived deserializer.
`content` and `function_call` accumulate an outer layer recording whether
the key was seen (for duplicate detection) around the field's own
optional value. -/
def ChatCompletionMessage.fromFields : List (String × Json) → Option String →
    Option (Option String) → Option (Option FunctionCall) → Except String ChatCompletionMessage
  | [], roleAcc, contentAcc, fcAcc =>
    match roleAcc with
    | none => .error "missing field role"
    | some r => .ok ⟨r, contentAcc.getD none, fcAcc.getD none⟩
  | (k, v) :: rest, roleAcc, contentAcc, fcAcc =>
    if k = "role" then
      match roleAcc with
      | some _ => .error "duplicate field role"
      | none =>
        match deString v with
        | .error e => .error e
        | .ok s => ChatCompletionMessage.fromFields rest (some s) contentAcc fcAcc
    else if k = "content" then
      match contentAcc with
      | some _ => .error "duplicate field content"
      | none =>
        match deOptString v with
        | .error e => .error e
        | .ok c => ChatCompletionMessage.fromFields rest roleAcc (some c) fcAcc
    else if k = "function_call" then
      match fcAcc with
      | some _ => .error "duplicate field function_call"
      | none =>
        match deOptFunctionCall v with
        | .error e => .error e
        | .ok fc => ChatCompletionMessage.fromFields rest roleAcc contentAcc (some fc)
    else ChatCompletionMessage.fromFields rest roleAcc contentAcc fcAcc

/-- serde deserialization of `ChatCompletionMessage`. -/
def ChatCompletionMessage.fromJson : Json → Except String ChatCompletionMessage
  | .jobj kvs => ChatCompletionMessage.fromFields kvs none none none
  | _ => .error "invalid type: expected struct ChatCompletionMessage"

/-- Field-visiting loop of `ChatCompletionChunkChoice`'s derived
deserializer. -/
def ChatCompletionChunkChoice.fromFields : List (String × Json) → Option Nat →
    Option ChatCompletionMessage → Option (Option String) → Except String ChatCompletionChunkChoice
  | [], idxAcc, deltaAcc, finAcc =>
    match idxAcc with
    | none => .error "missing field index"
    | some i =>
      match deltaAcc with
      | none => .error "missing field delta"
      | some d => .ok ⟨i, d, finAcc.getD none⟩
  | (k, v) :: rest, idxAcc, deltaAcc, finAcc =>
    if k = "index" then
      match idxAcc with
      | some _ => .error "duplicate field index"
      | none =>
        match deU64 v with
        | .error e => .error e
        | .ok i => ChatCompletionChunkChoice.fromFields rest (some i) deltaAcc finAcc
    else if k = "delta" then
      match deltaAcc with
      | some _ => .error "duplicate field delta"
      | none =>
        match ChatCompletionMessage.fromJson v with
        | .error e => .error e
        | .ok d => ChatCompletionChunkChoice.fromFields rest idxAcc (some d) finAcc
    else if k = "finish_reason" then
      match finAcc with
      | some _ => .error "duplicate field finish_reason"
      | none =>
        match deOptString v with
        | .error e => .error e
        | .ok fr => ChatCompletionChunkChoice.fromFields rest idxAcc deltaAcc (some fr)
    else ChatCompletionChunkChoice.fromFields rest idxAcc deltaAcc finAcc

/-- serde deserialization of `ChatCompletionChunkChoice`. -/
def ChatCompletionChunkChoice.fromJson : Json → Except String ChatCompletionChunkChoice
  | .jobj kvs => ChatCompletionChunkChoice.fromFields kvs none none none
  | _ => .error "invalid type: expected struct ChatCompletionChunkChoice"

/-- serde deserialization of `Vec<ChatCompletionChunkChoice>`. -/
def deChoices : Json → Except String (List ChatCompletionChunkChoice)
  | .jarr xs => deListWith ChatCompletionChunkChoice.fromJson xs
  | _ => .error "invalid type: expected a sequence"

/-- Field-visiting loop of `ChatCompletionChunk`'s derived deserializer. -/
def ChatCompletionChunk.fromFields : List (String × Json) → Option String → Option String →
    Option Nat → Option String → Option (List ChatCompletionChunkChoice) →
    Except String ChatCompletionChunk
  | [], idAcc, objAcc, createdAcc, modelAcc, choicesAcc =>
    match idAcc with
    | none => .error "missing field id"
    | some i =>
      match objAcc with
      | none => .error "missing field object"
      | some o =>
        match createdAcc with
        | none => .error "missing field created"
        | some cr =>
          match modelAcc with
          | none => .error "missing field model"
          | some m =>
            match choicesAcc with
            | none => .error "missing field choices"
            | some ch => .ok ⟨i, o, cr, m, ch⟩
  | (k, v) :: rest, idAcc, objAcc, createdAcc, modelAcc, choicesAcc =>
    if k = "id" then
      match idAcc with
      | some _ => .error "duplicate field id"
      | none =>
        match deString v with
        | .error e => .error e
        | .ok s => ChatCompletionChunk.fromFields rest (some s) objAcc createdAcc modelAcc choicesAcc
    else if k = "object" then
      match objAcc with
      | some _ => .error "duplicate field object"
      | none =>
        match deString v with
        | .error e => .error e
        | .ok s => ChatCompletionChunk.fromFields rest idAcc (some s) createdAcc modelAcc choicesAcc
    else if k = "created" then
      match createdAcc with
      | some _ => .error "duplicate field created"
      | none =>
        match deU64 v with
        | .error e => .error e
        | .ok n => ChatCompletionChunk.fromFields rest idAcc objAcc (some n) modelAcc choicesAcc
    else if k = "model" then
      match modelAcc with
      | some _ => .error "duplicate field model"
      | none =>
        match deString v with
        | .error e => .error e
        | .ok s => ChatCompletionChunk.fromFields rest idAcc objAcc createdAcc (some s) choicesAcc
    else if k = "choices" then
      match choicesAcc with
      | some _ => .error "duplicate field choices"
      | none =>
        match deChoices v with
        | .error e => .error e
        | .ok ch => ChatCompletionChunk.fromFields rest idAcc objAcc createdAcc modelAcc (some ch)
    else ChatCompletionChunk.fromFields rest idAcc objAcc createdAcc modelAcc choicesAcc

/-- serde deserialization of `ChatCompletionChunk`. -/
def ChatCompletionChunk.fromJson : Json → Except String ChatCompletionChunk
  | .jobj kvs => ChatCompletionChunk.fromFields kvs none none none none none
  | _ => .error "invalid type: expected struct ChatCompletionChunk"

/-- Model of `serde_json::from_str::<ChatCompletionChunk>`: parse the text
to a JSON value, then run the derived struct deserializer. -/
def parseChunkJson (s : String) : Except String ChatCompletionChunk :=
  match parseJson s with
  | .error e => .error e
  | .ok v => ChatCompletionChunk.fromJson v

/-! ## The frame decoder (`ChatCompletionChunk::from_chunk`)

The Rust function returns `anyhow::Result<Option<ChatCompletionChunk>>`.
The error cases are distinguished here by the return site that produced
them, matching the spec's error taxonomy (section 7):
`missingMarker` is the spec's `MissingPrefix`
(the anyhow message is the string starting with `Expected chunk to start with`),
`missingMarker2` is the `ok_or` on `strip_prefix` (anyhow message
`Expected chunk to have ... prefix`; unreachable, since `starts_with` was
just checked with the same pattern), and `invalidPayload` carries the
serde_json diagnostic, the spec's `InvalidPayload`. -/
inductive DecodeError where
  | missingMarker : DecodeError
  | missingMarker2 : DecodeError
  | invalidPayload (diag : String) : DecodeError
deriving DecidableEq, Repr

/-- Model of `ChatCompletionChunk::from_chunk` (src/dtypes.rs lines
290-313): trim, require the literal `data:` prefix, strip it, trim again,
recognize the `[DONE]` sentinel, otherwise deserialize the payload. -/
def ChatCompletionChunk.from_chunk (chunk : String) :
    Except DecodeError (Option ChatCompletionChunk) :=
  -- let chunk = chunk.trim();
  let c := rustTrim chunk
  -- if !chunk.starts_with("data:") { return Err(...) }
  if ¬ rustStartsWith c "data:" then .error .missingMarker
  else
    -- let chunk = chunk.strip_prefix("data:").ok_or(...)?.trim();
    match rustStripPfx c "data:" with
    | none => .error .missingMarker2
    | some rest =>
      let c2 := rustTrim rest
      -- if chunk == "[DONE]" { return Ok(None) }
      if c2 = "[DONE]" then .ok none
      else
        -- let chunk: Self = serde_json::from_str(chunk)?; Ok(Some(chunk))
        match parseChunkJson c2 with
        | .error e => .error (.invalidPayload e)
        | .ok v => .ok (some v)

/-! ## Polymorphic wire types and the request record -/

/-- Rust `FunctionCallType`, serde externally tagged with variant renames
`none` / `auto` / `name`: the unit variants encode as bare JSON strings,
the newtype variant as a single-key object. -/
inductive FunctionCallType where
  | None : FunctionCallType
  | Auto : FunctionCallType
  | Name (s : String) : FunctionCallType
deriving DecidableEq, Repr

/-- serde serialization of `FunctionCallType`. -/
def FunctionCallType.toJson : FunctionCallType → Json
  | .None => .jstr "none"
  | .Auto => .jstr "auto"
  | .Name s => .jobj [("name", .jstr s)]

/-- serde deserialization of `FunctionCallType` (externally tagged): a bare
string selects a unit variant; a single-entry object selects a variant by
key, a unit variant then requiring a `null` value and the newtype variant
`name` a string. -/
def FunctionCallType.fromJson : Json → Except String FunctionCallType
  | .jstr s =>
    if s = "none" then .ok .None
    else if s = "auto" then .ok .Auto
    else if s = "name" then .error "invalid type: unit variant"
    else .error "unknown variant"
  | .jobj [(k, v)] =>
    if k = "none" then
      match v with
      | .jnull => .ok .None
      | _ => .error "invalid type: expected unit"
    else if k = "auto" then
      match v with
      | .jnull => .ok .Auto
      | _ => .error "invalid type: expected unit"
    else if k = "name" then
      match deString v with
      | .error e => .error e
      | .ok s => .ok (.Name s)
    else .error "unknown variant"
  | .jobj _ => .error "expected map with a single key"
  | _ => .error "expected string or map"

/-- Rust `StopToken`, a serde untagged union. -/
inductive StopToken where
  | SingleToken (s : String) : StopToken
  | MultipleTokens (xs : List String) : StopToken
deriving DecidableEq, Repr

/-- serde serialization of `StopToken`: each variant emits its own shape
(string or array), with no normalization. -/
def StopToken.toJson : StopToken → Json
  | .SingleToken s => .jstr s
  | .MultipleTokens xs => .jarr (xs.map .jstr)

/-- serde deserialization of `StopToken` (untagged): try the variants in
declaration order — a string first, then an array of strings. -/
def StopToken.fromJson (v : Json) : Except String StopToken :=
  match deString v with
  | .ok s => .ok (.SingleToken s)
  | .error _ =>
    match v with
    | .jarr xs =>
      match deListWith deString xs with
      | .ok ss => .ok (.MultipleTokens ss)
      | .error _ => .error "data did not match any variant of untagged enum StopToken"
    | _ => .error "data did not match any variant of untagged enum StopToken"

/-- Rust `Function`: a function the model may call.  `parameters` is an
arbitrary JSON value (`serde_json::Value`), opaque to this system. -/
structure Function where
  name : String
  description : Option String
  parameters : Json

/-- Rust `ChatCompletionRequest`, field-for-field.  `f64` payloads are
modelled as exact rationals (no claim under verification depends on
IEEE-754 behaviour), and the `HashMap<String, f64>` of `logit_bias` as an
association list (serde serializes a map entry per element; the hash-map
iteration order is irrelevant to the claims, which concern only presence
or absence of the field). -/
structure ChatCompletionRequest where
  model : String
  messages : List ChatCompletionMessage
  functions : List Function
  function_call : Option FunctionCallType
  temperature : Option Rat
  top_p : Option Rat
  n : Option Nat
  stream : Option Bool
  stop : Option StopToken
  max_tokens : Option Nat
  presence_penalty : Option Rat
  frequency_penalty : Option Rat
  logit_bias : Option (List (String × Rat))
  user : Option String

/-- serde serialization of an `Option` field with no `skip_serializing_if`
attribute: `None` is serialized as an explicit JSON `null` and the field
is always emitted. -/
def optJson (f : α → Json) : Option α → Json
  | none => .jnull
  | some a => f a

/-- serde serialization of `FunctionCall`. -/
def FunctionCall.toJson (fc : FunctionCall) : Json :=
  .jobj [("name", .jstr fc.name), ("arguments", .jstr fc.arguments)]

/-- serde serialization of `ChatCompletionMessage` (derived: every field
emitted in declaration order, `None` as `null`). -/
def ChatCompletionMessage.toJson (m : ChatCompletionMessage) : Json :=
  .jobj [("role", .jstr m.role),
         ("content", optJson Json.jstr m.content),
         ("function_call", optJson FunctionCall.toJson m.function_call)]

/-- serde serialization of `Function`. -/
def Function.toJson (f : Function) : Json :=
  .jobj [("name", .jstr f.name),
         ("description", optJson Json.jstr f.description),
         ("parameters", f.parameters)]

/-- serde serialization of `ChatCompletionRequest` (derived: all fourteen
fields emitted in declaration order; `Option` fields have no
`skip_serializing_if` attribute in the source, so `None` serializes as an
explicit `null`). -/
def ChatCompletionRequest.toJson (r : ChatCompletionRequest) : Json :=
  .jobj [("model", .jstr r.model),
         ("messages", .jarr (r.messages.map ChatCompletionMessage.toJson)),
         ("functions", .jarr (r.functions.map Function.toJson)),
         ("function_call", optJson FunctionCallType.toJson r.function_call),
         ("temperature", optJson Json.jfloat r.temperature),
         ("top_p", optJson Json.jfloat r.top_p),
         ("n", optJson (fun k => Json.jint (Int.ofNat k)) r.n),
         ("stream", optJson Json.jbool r.stream),
         ("stop", optJson StopToken.toJson r.stop),
         ("max_tokens", optJson (fun k => Json.jint (Int.ofNat k)) r.max_tokens),
         ("presence_penalty", optJson Json.jfloat r.presence_penalty),
         ("frequency_penalty", optJson Json.jfloat r.frequency_penalty),
         ("logit_bias", optJson (fun m => Json.jobj (m.map (fun kv => (kv.1, Json.jfloat kv.2)))) r.logit_bias),
         ("user", optJson Json.jstr r.user)]

/-! ## Concrete frames used by the theorems below -/

/-- The three-choice streamed frame of the spec's section 8: finish
reasons `stop` / `length` / `function_call`, the third delta carrying a
function call named `get_weather` with the raw argument text
`{"loc": "Los Angeles"}`. -/
def frameThreeChoices : String :=
  "data: \x7b \"id\": \"chatcmpl-123\", \"object\": \"chat.completion.chunk\", \"created\": 1677652288, \"model\": \"gpt-3.5-turbo\", \"choices\": [ \x7b \"index\": 0, \"finish_reason\": \"stop\", \"delta\": \x7b \"role\": \"assistant\", \"content\": \"You are a helpful assistant.\" \x7d \x7d, \x7b \"index\": 1, \"finish_reason\": \"length\", \"delta\": \x7b \"role\": \"assistant\", \"content\": \"You are a helpful assistant.\" \x7d \x7d, \x7b \"index\": 2, \"finish_reason\": \"function_call\", \"delta\": \x7b \"role\": \"assistant\", \"function_call\": \x7b \"name\": \"get_weather\", \"arguments\": \"\x7b\\\"loc\\\": \\\"Los Angeles\\\"\x7d\" \x7d \x7d \x7d ] \x7d"

/-- The decoded value of `frameThreeChoices`: choice order, per-choice
finish reasons, and the verbatim argument string. -/
def chunkThreeChoices : ChatCompletionChunk :=
  { id := "chatcmpl-123"
    object := "chat.completion.chunk"
    created := 1677652288
    model := "gpt-3.5-turbo"
    choices := [
      { index := 0
        delta := { role := "assistant", content := some "You are a helpful assistant.",
                   function_call := none }
        finish_reason := some "stop" },
      { index := 1
        delta := { role := "assistant", content := some "You are a helpful assistant.",
                   function_call := none }
        finish_reason := some "length" },
      { index := 2
        delta := { role := "assistant", content := none,
                   function_call := some { name := "get_weather",
                                           arguments := "\x7b\"loc\": \"Los Angeles\"\x7d" } }
        finish_reason := some "function_call" }] }

/-- A prefixed frame whose single choice's delta has `content` but no
`role` field. -/
def frameDeltaNoRole : String :=
  "data: \x7b \"id\": \"\", \"object\": \"\", \"created\": 0, \"model\": \"\", \"choices\": [ \x7b \"index\": 0, \"delta\": \x7b \"content\": \"hi\" \x7d, \"finish_reason\": null \x7d ] \x7d"

/-- A prefixed frame whose single choice's delta has only a `role` field
(no `content`, no `function_call`). -/
def frameDeltaOnlyRole : String :=
  "data: \x7b \"id\": \"\", \"object\": \"\", \"created\": 0, \"model\": \"\", \"choices\": [ \x7b \"index\": 0, \"delta\": \x7b \"role\": \"assistant\" \x7d, \"finish_reason\": null \x7d ] \x7d"

/-- The decoded value of `frameDeltaOnlyRole`. -/
def chunkDeltaOnlyRole : ChatCompletionChunk :=
  { id := "", object := "", created := 0, model := ""
    choices := [
      { index := 0
        delta := { role := "assistant", content := none, function_call := none }
        finish_reason := none }] }

/-- A prefixed frame carrying every declared `ChatCompletionChunk` field
plus unknown fields at the chunk, choice and delta levels. -/
def frameUnknownFields : String :=
  "data: \x7b \"id\": \"x\", \"api_version\": \"v1\", \"object\": \"y\", \"created\": 7, \"model\": \"m\", \"extra\": [1, \x7b \"a\": null \x7d], \"choices\": [ \x7b \"index\": 0, \"logprobs\": null, \"delta\": \x7b \"role\": \"assistant\", \"refusal\": null \x7d, \"finish_reason\": \"stop\" \x7d ] \x7d"

/-- The decoded value of `frameUnknownFields`: exactly the declared
fields, the unknown ones ignored. -/
def chunkUnknownFields : ChatCompletionChunk :=
  { id := "x", object := "y", created := 7, model := "m"
    choices := [
      { index := 0
        delta := { role := "assistant", content := none, function_call := none }
        finish_reason := some "stop" }] }

/-- A request with the mandatory fields set and every `Option` field
absent. -/
def emptyChatRequest : ChatCompletionRequest :=
  { model := "gpt-3.5-turbo", messages := [], functions := []
    function_call := none, temperature := none, top_p := none, n := none
    stream := none, stop := none, max_tokens := none, presence_penalty := none
    frequency_penalty := none, logit_bias := none, user := none }

/-- The five declared field names of `ChatCompletionChunk`. -/
def isChunkField (k : String) : Bool :=
  k = "id" || k = "object" || k = "created" || k = "model" || k = "choices"

/-! ## Helper lemmas -/

/-- `strip_prefix` succeeding implies `starts_with` (both test the same
character-sequence prefix). -/
theorem rustStartsWith_of_strip {s pat r : String} (h : rustStripPfx s pat = some r) :
    rustStartsWith s pat = true := by
  unfold rustStripPfx at h
  unfold rustStartsWith
  by_cases hp : pat.data.isPrefixOf s.data
  · exact hp
  · simp [hp] at h

/-! ## Claim theorems -/

/-- C1: for every input string that, after trimming leading and trailing
whitespace, does not start with the literal prefix `data:`, the frame
decoder `ChatCompletionChunk::from_chunk` returns the `MissingPrefix`
error (the first `anyhow` return site), never an `Ok` outcome. -/
theorem from_chunk_missing_marker (s : String)
    (h : rustStartsWith (rustTrim s) "data:" = false) :
    ChatCompletionChunk.from_chunk s = .error .missingMarker := by
  simp [ChatCompletionChunk.from_chunk, h]

/-- Witness for C1 at the spec's three concrete inputs: the empty string,
two opening braces, and `d a t a :`. -/
theorem from_chunk_missing_marker_witness :
    ChatCompletionChunk.from_chunk "" = .error .missingMarker ∧
    ChatCompletionChunk.from_chunk "\x7b\x7b" = .error .missingMarker ∧
    ChatCompletionChunk.from_chunk "d a t a :" = .error .missingMarker :=
  ⟨from_chunk_missing_marker "" rfl,
   from_chunk_missing_marker "\x7b\x7b" rfl,
   from_chunk_missing_marker "d a t a :" rfl⟩

/-- C2: every input whose trimmed form starts with `data:` and whose
content after stripping that prefix and trimming again is exactly the
sentinel `[DONE]` decodes to the terminal outcome `Ok(None)` — not an
error and not a chunk. -/
theorem from_chunk_sentinel (s r : String)
    (h1 : rustStripPfx (rustTrim s) "data:" = some r)
    (h2 : rustTrim r = "[DONE]") :
    ChatCompletionChunk.from_chunk s = .ok none := by
  have hs := rustStartsWith_of_strip h1
  simp [ChatCompletionChunk.from_chunk, hs, h1, h2]

/-- Witness for C2 at the spec's two concrete frames, `data: [DONE]` and
`data: [DONE]` followed by two newlines. -/
theorem from_chunk_sentinel_witness :
    ChatCompletionChunk.from_chunk "data: [DONE]" = .ok none ∧
    ChatCompletionChunk.from_chunk "data: [DONE]\n\n" = .ok none :=
  ⟨from_chunk_sentinel "data: [DONE]" " [DONE]" rfl rfl,
   from_chunk_sentinel "data: [DONE]\n\n" " [DONE]" rfl rfl⟩

/-- C3: every input whose trimmed form carries the `data:` prefix but
whose remaining content is neither the `[DONE]` sentinel nor text that
deserializes to `ChatCompletionChunk`'s shape yields the `InvalidPayload`
error carrying the underlying parse diagnostic, never an `Ok` outcome. -/
theorem from_chunk_invalid_payload (s r e : String)
    (h1 : rustStripPfx (rustTrim s) "data:" = some r)
    (h2 : rustTrim r ≠ "[DONE]")
    (h3 : parseChunkJson (rustTrim r) = .error e) :
    ChatCompletionChunk.from_chunk s = .error (.invalidPayload e) := by
  have hs := rustStartsWith_of_strip h1
  simp [ChatCompletionChunk.from_chunk, hs, h1, h2, h3]

/-- Witness for C3: a prefixed frame with non-JSON, non-sentinel content. -/
theorem from_chunk_invalid_payload_witness :
    ChatCompletionChunk.from_chunk "data: oops" = .error (.invalidPayload "expected value") :=
  from_chunk_invalid_payload "data: oops" " oops" "expected value" rfl (by decide) rfl

set_option maxRecDepth 100000 in
/-- C4: the three-choice frame (finish reasons `stop`, `length`,
`function_call`; third delta holding the function call `get_weather` with
raw argument text) decodes to `Ok(Some(chunk))` preserving choice order,
per-choice finish reasons, and the argument string byte-for-byte. -/
theorem from_chunk_three_choices :
    ChatCompletionChunk.from_chunk frameThreeChoices = .ok (some chunkThreeChoices) := by
  rfl

/-- C9: the frame decoder is a pure, stateless mapping — it is a function
of its input string alone, so two invocations on the same string return
structurally equal results (in particular, decoding the same valid frame
twice yields two structurally equal chunk values). -/
theorem from_chunk_deterministic :
    ∀ s : String, ChatCompletionChunk.from_chunk s = ChatCompletionChunk.from_chunk s :=
  fun _ => rfl

set_option maxRecDepth 100000 in
/-- Counterexample to C6 as stated: a prefixed frame whose choice delta
omits the `role` field does not decode successfully — `role` is a
required (non-`Option`) field of `ChatCompletionMessage`, so serde fails
with a `missing field` error. -/
theorem from_chunk_delta_no_role_fails :
    ChatCompletionChunk.from_chunk frameDeltaNoRole =
      .error (.invalidPayload "missing field role") := by
  rfl

set_option maxRecDepth 100000 in
/-- C6 (amended): in a chunk-choice delta the fields `content` and
`function_call` may each be absent (and are then treated as absent
values), but `role` is required.  A delta carrying only `role` decodes
with `content` and `function_call` absent; `content` may appear without
`function_call` and vice versa; and a full frame whose delta has only
`role` decodes successfully. -/
theorem delta_optional_fields :
    (∀ r, ChatCompletionMessage.fromJson (.jobj [("role", .jstr r)]) = .ok ⟨r, none, none⟩) ∧
    (∀ r c, ChatCompletionMessage.fromJson (.jobj [("role", .jstr r), ("content", .jstr c)]) =
      .ok ⟨r, some c, none⟩) ∧
    (∀ r n a, ChatCompletionMessage.fromJson
        (.jobj [("role", .jstr r), ("function_call", .jobj [("name", .jstr n), ("arguments", .jstr a)])]) =
      .ok ⟨r, none, some ⟨n, a⟩⟩) ∧
    ChatCompletionChunk.from_chunk frameDeltaOnlyRole = .ok (some chunkDeltaOnlyRole) :=
  ⟨fun _ => rfl, fun _ _ => rfl, fun _ _ _ => rfl, rfl⟩

/-- C7: `StopToken` encoding emits the shape the instance holds (a bare
JSON string for `SingleToken`, an array in element order for
`MultipleTokens`, no normalization to array form), and decoding an
encoded value restores the original variant, for every value. -/
theorem stop_token_roundtrip :
    (∀ s, StopToken.toJson (.SingleToken s) = .jstr s) ∧
    (∀ xs, StopToken.toJson (.MultipleTokens xs) = .jarr (xs.map .jstr)) ∧
    (∀ t : StopToken, StopToken.fromJson t.toJson = .ok t) := by
  refine ⟨fun _ => rfl, fun _ => rfl, fun t => ?_⟩
  cases t with
  | SingleToken s => rfl
  | MultipleTokens xs =>
    have h : ∀ ys : List String, deListWith deString (ys.map .jstr) = .ok ys := by
      intro ys
      induction ys with
      | nil => rfl
      | cons y ys ih => simp [deListWith, deString, ih]
    simp [StopToken.toJson, StopToken.fromJson, deString, h xs]

/-- C8: `FunctionCallType` encodes `None` to the JSON string `none`,
`Auto` to the JSON string `auto`, and `Name x` to the single-key object
binding `name` to `x`; and decoding an encoded value restores the
original variant, for each of the three variants. -/
theorem function_call_type_encoding :
    FunctionCallType.toJson .None = .jstr "none" ∧
    FunctionCallType.toJson .Auto = .jstr "auto" ∧
    (∀ s, FunctionCallType.toJson (.Name s) = .jobj [("name", .jstr s)]) ∧
    (∀ t : FunctionCallType, FunctionCallType.fromJson t.toJson = .ok t) := by
  refine ⟨rfl, rfl, fun _ => rfl, fun t => ?_⟩
  cases t <;> rfl

/-- Counterexample to C5 as stated: `ChatCompletionRequest` derives plain
`Serialize` with no `skip_serializing_if` attributes, so an absent
(`None`) optional field is not omitted from the wire encoding — the field
name does appear, bound to an explicit JSON `null`.  Concretely, in the
serialization of a request whose `temperature` is `None`, the key
`temperature` is present and maps to `null`. -/
theorem request_absent_field_not_omitted :
    emptyChatRequest.temperature = none ∧
    Json.lookupKey "temperature" emptyChatRequest.toJson = some .jnull ∧
    emptyChatRequest.toJson.keys.contains "temperature" = true :=
  ⟨rfl, rfl, rfl⟩

/-- C5 (amended): the serialized request always carries all fourteen
field names, in declaration order; every `Option`-typed field that is
absent (`None`) is encoded as an explicit JSON `null` under its field
name (not omitted). -/
theorem request_absent_fields_serialize_as_null (r : ChatCompletionRequest) :
    r.toJson.keys = ["model", "messages", "functions", "function_call", "temperature",
      "top_p", "n", "stream", "stop", "max_tokens", "presence_penalty",
      "frequency_penalty", "logit_bias", "user"] ∧
    (r.function_call = none → Json.lookupKey "function_call" r.toJson = some .jnull) ∧
    (r.temperature = none → Json.lookupKey "temperature" r.toJson = some .jnull) ∧
    (r.top_p = none → Json.lookupKey "top_p" r.toJson = some .jnull) ∧
    (r.n = none → Json.lookupKey "n" r.toJson = some .jnull) ∧
    (r.stream = none → Json.lookupKey "stream" r.toJson = some .jnull) ∧
    (r.stop = none → Json.lookupKey "stop" r.toJson = some .jnull) ∧
    (r.max_tokens = none → Json.lookupKey "max_tokens" r.toJson = some .jnull) ∧
    (r.presence_penalty = none → Json.lookupKey "presence_penalty" r.toJson = some .jnull) ∧
    (r.frequency_penalty = none → Json.lookupKey "frequency_penalty" r.toJson = some .jnull) ∧
    (r.logit_bias = none → Json.lookupKey "logit_bias" r.toJson = some .jnull) ∧
    (r.user = none → Json.lookupKey "user" r.toJson = some .jnull) := by
  refine ⟨rfl, ?_, ?_, ?_, ?_, ?_, ?_, ?_, ?_, ?_, ?_, ?_⟩ <;>
    intro h <;>
    simp [ChatCompletionRequest.toJson, Json.lookupKey, Json.lookupKey.go, h, optJson]

/-- Witness for C5's amended theorem at a concrete request with every
optional field absent. -/
theorem request_absent_fields_serialize_as_null_witness :
    Json.lookupKey "user" emptyChatRequest.toJson = some .jnull :=
  (request_absent_fields_serialize_as_null emptyChatRequest).2.2.2.2.2.2.2.2.2.2.2 rfl


/-- Unknown keys never influence the field-visiting loop of
`ChatCompletionChunk`'s deserializer: visiting an entry list computes the
same result as visiting only its entries with declared field names. -/
theorem chunkFromFields_filter (kvs : List (String × Json)) :
    ∀ a b c d e, ChatCompletionChunk.fromFields kvs a b c d e =
      ChatCompletionChunk.fromFields (kvs.filter fun kv => isChunkField kv.1) a b c d e := by
  induction kvs with
  | nil => intro a b c d e; rfl
  | cons kv rest ih =>
    intro a b c d e
    obtain ⟨k, v⟩ := kv
    by_cases h1 : k = "id" <;> by_cases h2 : k = "object" <;> by_cases h3 : k = "created" <;>
      by_cases h4 : k = "model" <;> by_cases h5 : k = "choices" <;>
      simp_all [List.filter_cons, ChatCompletionChunk.fromFields, isChunkField, ih]

set_option maxRecDepth 100000 in
/-- C10: unknown JSON fields are silently ignored during decode.
Generally, the chunk deserializer's result on any object is the result on
the object restricted to the declared field names; concretely, a prefixed
frame carrying all declared fields plus unknown fields at the chunk,
choice and delta levels decodes to `Ok(Some(chunk))`, the unknown fields
dropped. -/
theorem from_chunk_ignores_unknown_fields :
    (∀ kvs a b c d e, ChatCompletionChunk.fromFields kvs a b c d e =
      ChatCompletionChunk.fromFields (kvs.filter fun kv => isChunkField kv.1) a b c d e) ∧
    ChatCompletionChunk.from_chunk frameUnknownFields = .ok (some chunkUnknownFields) :=
  ⟨chunkFromFields_filter, rfl⟩

end Ohairs
